import Mathlib

/-!
Shallow embedding of the `OpenAIAssistantAgent` defined in
`openai-assistant-agent.ipynb` (autogen cookbook).  The agent wraps the
OpenAI Assistant API behind four message handlers:

  * `handle_message`   (TextMessage)
  * `on_reset`         (Reset)
  * `on_upload_for_code_interpreter` (UploadForCodeInterpreter)
  * `on_upload_for_file_search`      (UploadForFileSearch)

All durable state (thread messages, tool resources, files, vector stores)
lives on the remote vendor service; we model that state explicitly and each
handler as a pure function from pre-state (plus vendor-behaviour oracles for
the run response and the delete responses) to a trace of the remote calls it
issues and its outcome.  Fallible steps (file open, `assert`, `raise`) are
modelled with explicit error values.
-/

namespace AssistantAgent

/-- One content part of a thread message: a text part carrying a value, or a
part of any other type (image, etc.). -/
inductive ContentPart where
  | text (value : String)
  | other
deriving DecidableEq, Repr

/-- `content.type == "text"` test from the handler. -/
def ContentPart.isText : ContentPart → Bool
  | .text _ => true
  | .other => false

/-- `content.text.value` for a text part (dummy for the other parts). -/
def ContentPart.textValue : ContentPart → String
  | .text v => v
  | .other => ""

/-- A message stored in the remote thread. -/
structure ThreadMessage where
  id : String
  content : List ContentPart
  role : String
  sender : String
deriving DecidableEq, Repr

/-- `openai.types.beta.thread.ToolResourcesCodeInterpreter`: its `file_ids`
field is `Optional[List[str]]`. -/
structure ToolResourcesCodeInterpreter where
  file_ids : Option (List String)
deriving DecidableEq, Repr

/-- `openai.types.beta.thread.ToolResources`: the `code_interpreter` entry is
optional and defaults to `None`, so the bare constructor call
`ToolResources()` in the handler produces `code_interpreter = None`. -/
structure ToolResources where
  code_interpreter : Option ToolResourcesCodeInterpreter := none
deriving DecidableEq, Repr

/-- Python truthiness of an `Optional[List[str]]` value: `None` and the empty
list are falsy, a non-empty list is truthy. -/
def pyTruthyOptList (o : Option (List String)) : Bool :=
  match o with
  | none => false
  | some l => !l.isEmpty

/-- The four dataclass message shapes of the notebook. -/
structure TextMessage where
  content : String
  source : String
deriving DecidableEq, Repr

structure Reset where
deriving DecidableEq, Repr

structure UploadForCodeInterpreter where
  file_path : String
deriving DecidableEq, Repr

structure UploadForFileSearch where
  file_path : String
  vector_store_id : String
deriving DecidableEq, Repr

/-- `os.path.basename` on a POSIX char list: everything after the last
slash (the accumulator restarts at each `'/'`). -/
def basenameChars (cs : List Char) : List Char :=
  cs.foldl (fun acc c => if c = '/' then [] else acc ++ [c]) []

/-- `os.path.basename` for POSIX paths: everything after the last slash. -/
def basename (p : String) : String :=
  String.mk (basenameChars p.data)

/-- A file object returned by the vendor `files.create` call. -/
structure FileObject where
  id : String
  filename : String
  content : List Nat
deriving DecidableEq, Repr

/-- Trace of one `on_upload_for_code_interpreter` invocation: the file passed
to `files.create` (if that call was reached), the `file_ids` list pushed back
to the thread by `threads.update` (if that call was reached), and the error
the handler raised, if any. -/
structure UploadCITrace where
  uploadedFile : Option FileObject
  writtenFileIds : Option (List String)
  error : Option String
deriving DecidableEq, Repr

/-- `OpenAIAssistantAgent.on_upload_for_code_interpreter`.

Steps, in source order: open and read the local file in binary mode (an
unreadable path raises); take `os.path.basename` of the path; upload the file
with `files.create` (the vendor assigns the fresh id `newFileId`); retrieve
the thread and default its tool resources to `ToolResources()` when `None`;
`assert tool_resources.code_interpreter is not None`; pick `file_ids` as the
existing list when it is truthy and `[file.id]` otherwise; push `file_ids`
back with `threads.update`.

`fs` models the local filesystem (path to byte content),
`thread_tool_resources` the retrieved thread's `tool_resources` field. -/
def on_upload_for_code_interpreter
    (fs : String → Option (List Nat)) (newFileId : String)
    (thread_tool_resources : Option ToolResources)
    (message : UploadForCodeInterpreter) : UploadCITrace :=
  match fs message.file_path with
  | none => { uploadedFile := none, writtenFileIds := none,
              error := some "FileNotFoundError" }
  | some file_content =>
    let file_name := basename message.file_path
    let file : FileObject :=
      { id := newFileId, filename := file_name, content := file_content }
    let tool_resources : ToolResources :=
      match thread_tool_resources with
      | some tr => tr
      | none => {}
    match tool_resources.code_interpreter with
    | none =>
      { uploadedFile := some file, writtenFileIds := none,
        error := some "AssertionError" }
    | some ci =>
      let file_ids : List String :=
        if pyTruthyOptList ci.file_ids then ci.file_ids.getD []
        else [file.id]
      { uploadedFile := some file, writtenFileIds := some file_ids,
        error := none }

/-- The message appended to the thread by the `messages.create` call of
`handle_message`: one text content part with the incoming content, role
`"user"`, metadata sender `message.source`, vendor-assigned id `newId`. -/
def createdUserMsg (newId : String) (message : TextMessage) : ThreadMessage :=
  { id := newId, content := [ContentPart.text message.content],
    role := "user", sender := message.source }

/-- The thread after the `messages.create` call and the streamed run of
`handle_message`: the pre-state, then the created user message, then the
messages the vendor run appended (`runAppends`). Oldest first, so
`messages.list(order="desc", limit=1)` fetches its last element. -/
def threadAfterRun (newId : String) (msgs runAppends : List ThreadMessage)
    (message : TextMessage) : List ThreadMessage :=
  (msgs ++ [createdUserMsg newId message]) ++ runAppends

/-- `OpenAIAssistantAgent.handle_message`.

Steps, in source order: `messages.create` appends the user's message to the
thread and the streamed run appends the assistant's response messages (both
folded into `threadAfterRun`, with `runAppends` the vendor-behaviour oracle
for the run); `messages.list(order="desc", limit=1)` fetches the newest
thread message and `messages.data[0].content` reads its content parts
(raising on an empty thread); `content.type == "text"` filters the text
parts; an empty filter raises `ValueError`, otherwise the handler returns a
`TextMessage` whose content is the first text part's value and whose source
is `self.metadata["type"]` — the agent's registered type, here `agentType`.
The result pairs the handler's outcome with the post-state of the thread. -/
def handle_message (agentType : String) (newId : String)
    (msgs : List ThreadMessage) (runAppends : List ThreadMessage)
    (message : TextMessage) :
    Except String TextMessage × List ThreadMessage :=
  let afterRun := threadAfterRun newId msgs runAppends message
  match afterRun.getLast? with
  | none => (Except.error "IndexError", afterRun)
  | some lastMsg =>
    let text_content := lastMsg.content.filter (fun c => c.isText)
    match text_content with
    | [] => (Except.error "Expected text content in the last message", afterRun)
    | c :: _ =>
      (Except.ok { content := c.textValue, source := agentType }, afterRun)

/-- One iteration trace of the `while True` pagination loop in `on_reset`:
each `messages.list` call returns a page of at most `pageSize` messages and a
`has_next_page` flag that is set exactly when more messages remain after the
page; the loop appends the page's ids to `all_msgs` and stops when the flag
is clear.  `remaining` is the portion of the thread after the cursor
`all_msgs[-1]`; `fuel` bounds the iteration count (the loop terminates as
long as pages are non-empty, which `collect_spec` below establishes for any
positive page size). -/
def on_reset_collect (fuel : Nat) (remaining : List ThreadMessage)
    (pageSize : Nat) (all_msgs : List String) (listCalls : Nat) :
    List String × Nat :=
  match fuel with
  | 0 => (all_msgs, listCalls)
  | fuel' + 1 =>
    let page := remaining.take pageSize
    let all_msgs2 := all_msgs ++ page.map (fun m => m.id)
    let listCalls2 := listCalls + 1
    if pageSize < remaining.length then
      on_reset_collect fuel' (remaining.drop pageSize) pageSize all_msgs2
        listCalls2
    else
      (all_msgs2, listCalls2)

/-- The delete loop of `on_reset`: for each collected id, issue
`messages.delete` and `assert status.deleted is True`.  `deleteResp` is the
vendor-behaviour oracle giving each delete response's `deleted` field.
Returns the list of ids for which a delete call was issued and whether the
loop ran to completion (`false` means the assertion aborted it). -/
def deleteLoop (ids : List String) (deleteResp : String → Bool) :
    List String × Bool :=
  match ids with
  | [] => ([], true)
  | msg_id :: rest =>
    if deleteResp msg_id then
      let r := deleteLoop rest deleteResp
      (msg_id :: r.1, r.2)
    else
      ([msg_id], false)

/-- Effect of the issued delete calls on the remote thread: each call removes
the message with that id. -/
def applyDeletes (msgs : List ThreadMessage) (ids : List String) :
    List ThreadMessage :=
  ids.foldl (fun acc i => acc.filter (fun m => m.id ≠ i)) msgs

/-- Trace of one `on_reset` invocation. -/
structure ResetTrace where
  listCalls : Nat
  deleteCalls : List String
  completed : Bool
  threadAfter : List ThreadMessage
deriving DecidableEq, Repr

/-- `OpenAIAssistantAgent.on_reset`: page through all thread messages
collecting their ids, then delete each collected id, asserting each response
reports `deleted is True`. -/
def on_reset (fuel : Nat) (msgs : List ThreadMessage) (pageSize : Nat)
    (deleteResp : String → Bool) : ResetTrace :=
  let collected := on_reset_collect fuel msgs pageSize [] 0
  let deleted := deleteLoop collected.1 deleteResp
  { listCalls := collected.2, deleteCalls := deleted.1,
    completed := deleted.2, threadAfter := applyDeletes msgs deleted.1 }

/-- A file held by a remote vector store, with the indexing status of the
batch that uploaded it. -/
structure VectorStoreFile where
  filename : String
  content : List Nat
  status : String
deriving DecidableEq, Repr

/-- Modelled from the spec: the vendor client's
`vector_stores.file_batches.upload_and_poll` (external collaborator, not in
this repository) uploads the given files into the vector store and polls the
batch until the vendor reports indexing completion, only then returning; so
at return the batch status, and each uploaded file's status, is
`"completed"`. -/
def upload_and_poll (store : List VectorStoreFile)
    (files : List (String × List Nat)) : List VectorStoreFile × String :=
  (store ++ files.map (fun f => { filename := f.1, content := f.2,
                                  status := "completed" }), "completed")

/-- `OpenAIAssistantAgent.on_upload_for_file_search`: read the local file in
binary mode, take the basename of the path, and call `upload_and_poll` on the
named vector store with the single `(file_name, file_content)` pair.  Returns
the post-state of the vector store and the final batch status. -/
def on_upload_for_file_search (fs : String → Option (List Nat))
    (store : List VectorStoreFile) (message : UploadForFileSearch) :
    Except String (List VectorStoreFile × String) :=
  match fs message.file_path with
  | none => Except.error "FileNotFoundError"
  | some file_content =>
    let file_name := basename message.file_path
    Except.ok (upload_and_poll store [(file_name, file_content)])

/-! Concrete demo inputs used to instantiate witnesses and counterexamples. -/

/-- A demo local filesystem with two readable files. -/
def fsDemo : String → Option (List Nat) := fun p =>
  if p = "data.csv" then some [1, 2, 3]
  else if p = "dir/data.csv" then some [7, 8, 9]
  else none

/-- A demo remote thread with two messages. -/
def msgsDemo : List ThreadMessage :=
  [{ id := "m1", content := [ContentPart.text "a"], role := "user",
     sender := "user" },
   { id := "m2", content := [ContentPart.other], role := "assistant",
     sender := "assistant" }]

/-- C1: when the retrieved thread's tool resources carry a non-empty
code-interpreter file id list `ids`, the `file_ids` list the handler pushes
back via `threads.update` is exactly `ids`, unchanged; since the vendor's
fresh file id is not among the existing ids, the newly uploaded file's id is
absent from the written list. -/
theorem C1_existing_list_written_unchanged
    (fs : String → Option (List Nat)) (newFileId : String)
    (ids : List String) (message : UploadForCodeInterpreter)
    (content : List Nat) (hfs : fs message.file_path = some content)
    (hne : ids ≠ []) (hfresh : newFileId ∉ ids) :
    (on_upload_for_code_interpreter fs newFileId
        (some { code_interpreter := some { file_ids := some ids } })
        message).writtenFileIds = some ids ∧
    ∀ l, (on_upload_for_code_interpreter fs newFileId
        (some { code_interpreter := some { file_ids := some ids } })
        message).writtenFileIds = some l → newFileId ∉ l := by
  have hw : (on_upload_for_code_interpreter fs newFileId
      (some { code_interpreter := some { file_ids := some ids } })
      message).writtenFileIds = some ids := by
    simp [on_upload_for_code_interpreter, hfs, pyTruthyOptList, hne]
  refine ⟨hw, ?_⟩
  intro l hl
  rw [hw] at hl
  cases hl
  exact hfresh

/-- Witness for C1 at a concrete input: uploading `data.csv` (fresh vendor id
`file-new`) against a thread listing `[file-a, file-b]` writes back exactly
`[file-a, file-b]`. -/
theorem C1_witness :
    (on_upload_for_code_interpreter fsDemo "file-new"
        (some { code_interpreter := some { file_ids := some ["file-a", "file-b"] } })
        { file_path := "data.csv" }).writtenFileIds
      = some ["file-a", "file-b"] :=
  (C1_existing_list_written_unchanged fsDemo "file-new" ["file-a", "file-b"]
      { file_path := "data.csv" } [1, 2, 3] (by simp [fsDemo]) (by simp)
      (by simp)).1

/-- C2: the claim says every completed upload-for-code-interpreter pushes
back a list containing the new file's id.  At a thread whose code-interpreter
resource already lists `file-old`, the handler completes without error yet
writes back exactly `[file-old]`: the freshly uploaded `file-new` is dropped,
contradicting the claim and the handler's own docstring ("updates the thread
with the file"). -/
theorem C2_completed_yet_new_id_dropped :
    (on_upload_for_code_interpreter fsDemo "file-new"
        (some { code_interpreter := some { file_ids := some ["file-old"] } })
        { file_path := "data.csv" })
      = { uploadedFile := some { id := "file-new", filename := "data.csv",
                                 content := [1, 2, 3] },
          writtenFileIds := some ["file-old"], error := none } ∧
    "file-new" ∉ ["file-old"] := by
  constructor
  · decide
  · simp

/-- C3 counterexample: when the retrieved thread reports no tool resources at
all, the handler does not reach the single-new-file default: the bare
`ToolResources()` default has `code_interpreter = None`, the assert fails,
and the handler aborts with no `threads.update` issued. -/
theorem C3_counterexample_assert_aborts :
    (on_upload_for_code_interpreter fsDemo "file-new" none
        { file_path := "data.csv" })
      = { uploadedFile := some { id := "file-new", filename := "data.csv",
                                 content := [1, 2, 3] },
          writtenFileIds := none, error := some "AssertionError" } := by
  decide

/-- C3 (amended): when the thread reports no tool resources at all, or tool
resources without a code-interpreter entry, the handler aborts at the assert
with `AssertionError` and issues no thread update; the single-new-file
default `[file.id]` is reached exactly when a code-interpreter entry exists
whose `file_ids` is `None` or empty, and then the handler completes the
update writing exactly that singleton. -/
theorem C3_amended_assert_between_default
    (fs : String → Option (List Nat)) (newFileId : String)
    (message : UploadForCodeInterpreter) (content : List Nat)
    (hfs : fs message.file_path = some content) :
    (∀ tr : Option ToolResources,
      (tr = none ∨ ∃ t, tr = some t ∧ t.code_interpreter = none) →
      (on_upload_for_code_interpreter fs newFileId tr message).error
          = some "AssertionError" ∧
      (on_upload_for_code_interpreter fs newFileId tr message).writtenFileIds
          = none) ∧
    (∀ (t : ToolResources) (ci : ToolResourcesCodeInterpreter),
      t.code_interpreter = some ci → pyTruthyOptList ci.file_ids = false →
      (on_upload_for_code_interpreter fs newFileId (some t) message).error
          = none ∧
      (on_upload_for_code_interpreter fs newFileId (some t)
          message).writtenFileIds = some [newFileId]) := by
  constructor
  · intro tr htr
    rcases htr with h | ⟨t, ht, hci⟩
    · subst h
      simp [on_upload_for_code_interpreter, hfs]
    · subst ht
      simp [on_upload_for_code_interpreter, hfs, hci]
  · intro t ci hci hfalsy
    simp [on_upload_for_code_interpreter, hfs, hci, hfalsy]

/-- Witness for C3 (amended) at a concrete input: with a code-interpreter
entry present but an empty file id list, the handler completes and writes
back exactly the new file's id. -/
theorem C3_witness :
    (on_upload_for_code_interpreter fsDemo "file-new"
        (some { code_interpreter := some { file_ids := some [] } })
        { file_path := "data.csv" }).writtenFileIds = some ["file-new"] :=
  ((C3_amended_assert_between_default fsDemo "file-new"
      { file_path := "data.csv" } [1, 2, 3] (by simp [fsDemo])).2
    { code_interpreter := some { file_ids := some [] } }
    { file_ids := some [] } rfl rfl).2

lemma handle_message_fst_eq (agentType newId : String)
    (msgs runAppends : List ThreadMessage) (message : TextMessage)
    (lastMsg : ThreadMessage)
    (hgl : (threadAfterRun newId msgs runAppends message).getLast?
        = some lastMsg) :
    (handle_message agentType newId msgs runAppends message).1
      = match lastMsg.content.filter (fun c => c.isText) with
        | [] => Except.error "Expected text content in the last message"
        | c :: _ => Except.ok { content := c.textValue, source := agentType } := by
  unfold handle_message
  dsimp only
  rw [hgl]
  dsimp only
  cases hfc : lastMsg.content.filter (fun c => c.isText) with
  | nil => rfl
  | cons c rest => rfl

/-- C4 counterexample: the claim's "never equals the source field of the
incoming message, regardless of what the caller supplied" fails when the
caller supplies the agent's own registered type as source: here the handler
completes and the returned source `"assistant"` coincides with the incoming
message's source. -/
theorem C4_counterexample_source_can_coincide :
    (handle_message "assistant" "msg-1" [] []
        { content := "hi", source := "assistant" }).1
      = Except.ok { content := "hi", source := "assistant" } ∧
    (TextMessage.mk "hi" "assistant").source = "assistant" := by
  exact ⟨rfl, rfl⟩

/-- C4 (amended): every `TextMessage` the handler returns carries the agent's
own registered type as its source; in particular, whenever the caller-supplied
source differs from the agent's type, the returned source differs from the
incoming one. -/
theorem C4_amended_source_is_agent_type
    (agentType newId : String) (msgs runAppends : List ThreadMessage)
    (message : TextMessage) (reply : TextMessage)
    (hok : (handle_message agentType newId msgs runAppends message).1
        = Except.ok reply) :
    reply.source = agentType ∧
      (message.source ≠ agentType → reply.source ≠ message.source) := by
  have hsrc : reply.source = agentType := by
    cases hgl : (threadAfterRun newId msgs runAppends message).getLast? with
    | none =>
      unfold handle_message at hok
      dsimp only at hok
      rw [hgl] at hok
      simp at hok
    | some lastMsg =>
      rw [handle_message_fst_eq agentType newId msgs runAppends message
          lastMsg hgl] at hok
      cases hfc : lastMsg.content.filter (fun c => c.isText) with
      | nil => rw [hfc] at hok; simp at hok
      | cons c rest =>
        rw [hfc] at hok
        injection hok with h
        rw [← h]
  refine ⟨hsrc, fun hne hcontra => ?_⟩
  rw [hsrc] at hcontra
  exact hne hcontra.symm

/-- Witness for C4 (amended) at a concrete input: with caller source
`"user"` and agent type `"assistant"`, the returned source is
`"assistant"`. -/
theorem C4_witness :
    ({ content := "hi", source := "assistant" } : TextMessage).source
      = "assistant" :=
  (C4_amended_source_is_agent_type "assistant" "msg-1" [] []
      { content := "hi", source := "user" }
      { content := "hi", source := "assistant" } rfl).1

/-- C5: the handler raises the `ValueError` exactly when the newest thread
message (the one fetched by `messages.list(order="desc", limit=1)`) contains
no text-typed content part; when at least one text part exists, it returns
normally with content equal to the first text part's value (tagged with the
agent's type). -/
theorem C5_raises_iff_no_text_part
    (agentType newId : String) (msgs runAppends : List ThreadMessage)
    (message : TextMessage) (lastMsg : ThreadMessage)
    (hgl : (threadAfterRun newId msgs runAppends message).getLast?
        = some lastMsg) :
    ((handle_message agentType newId msgs runAppends message).1
        = Except.error "Expected text content in the last message"
      ↔ lastMsg.content.filter (fun c => c.isText) = []) ∧
    ∀ c rest, lastMsg.content.filter (fun c => c.isText) = c :: rest →
      (handle_message agentType newId msgs runAppends message).1
        = Except.ok { content := c.textValue, source := agentType } := by
  rw [handle_message_fst_eq agentType newId msgs runAppends message lastMsg hgl]
  cases hfc : lastMsg.content.filter (fun c => c.isText) with
  | nil => simp
  | cons c rest =>
    constructor
    · simp
    · intro c' rest' h
      cases h
      rfl

/-- Witness for C5 at a concrete input: the newest message is the created
user message, whose single text part `"hi"` is returned as the reply
content. -/
theorem C5_witness :
    (handle_message "assistant" "msg-1" [] []
        { content := "hi", source := "user" }).1
      = Except.ok { content := "hi", source := "assistant" } :=
  (C5_raises_iff_no_text_part "assistant" "msg-1" [] []
      { content := "hi", source := "user" }
      (createdUserMsg "msg-1" { content := "hi", source := "user" }) rfl).2
    (ContentPart.text "hi") [] rfl

lemma ceil_div_base (N p : Nat) (hp : 0 < p) (hle : N ≤ p) :
    max 1 ((N + p - 1) / p) = 1 := by
  have hlt : (N + p - 1) / p < 2 := by
    rw [Nat.div_lt_iff_lt_mul hp]
    omega
  interval_cases h : (N + p - 1) / p <;> simp

lemma ceil_div_step (N p : Nat) (hp : 0 < p) (hlt : p < N) :
    1 + max 1 ((N - p + p - 1) / p) = max 1 ((N + p - 1) / p) := by
  have h1 : N - p + p = N := Nat.sub_add_cancel (le_of_lt hlt)
  rw [h1]
  have h3 : 1 ≤ (N - 1) / p := (Nat.one_le_div_iff hp).mpr (by omega)
  have h4 : N + p - 1 = (N - 1) + p := by omega
  rw [h4, Nat.add_div_right _ hp]
  omega

lemma collect_spec (pageSize : Nat) (hp : 0 < pageSize) :
    ∀ (fuel : Nat) (remaining : List ThreadMessage) (all_msgs : List String)
      (listCalls : Nat), remaining.length < fuel →
      on_reset_collect fuel remaining pageSize all_msgs listCalls
        = (all_msgs ++ remaining.map (fun m => m.id),
           listCalls + max 1 ((remaining.length + pageSize - 1) / pageSize)) := by
  intro fuel
  induction fuel with
  | zero => intro remaining all_msgs listCalls h; omega
  | succ fuel ih =>
    intro remaining all_msgs listCalls h
    rw [on_reset_collect]
    by_cases hlt : pageSize < remaining.length
    · rw [if_pos hlt]
      rw [ih (remaining.drop pageSize) _ _
        (by rw [List.length_drop]; omega)]
      rw [List.length_drop]
      rw [Prod.mk.injEq]
      refine ⟨?_, ?_⟩
      · rw [List.append_assoc, ← List.map_append, List.take_append_drop]
      · rw [Nat.add_assoc, ceil_div_step remaining.length pageSize hp hlt]
    · rw [if_neg hlt]
      have htake : remaining.take pageSize = remaining :=
        List.take_of_length_le (by omega)
      rw [htake, Prod.mk.injEq]
      refine ⟨rfl, ?_⟩
      rw [ceil_div_base remaining.length pageSize hp (by omega)]

lemma deleteLoop_all_ok (deleteResp : String → Bool) :
    ∀ ids : List String, (∀ i ∈ ids, deleteResp i = true) →
      deleteLoop ids deleteResp = (ids, true) := by
  intro ids
  induction ids with
  | nil => intro _; rfl
  | cons a rest ih =>
    intro h
    rw [deleteLoop]
    rw [if_pos (h a (List.mem_cons_self a rest))]
    rw [ih (fun i hi => h i (List.mem_cons_of_mem a hi))]

lemma deleteLoop_aborts (deleteResp : String → Bool) :
    ∀ (pre : List String) (bad : String) (post : List String),
      (∀ i ∈ pre, deleteResp i = true) → deleteResp bad = false →
      deleteLoop (pre ++ bad :: post) deleteResp = (pre ++ [bad], false) := by
  intro pre
  induction pre with
  | nil =>
    intro bad post _ hbad
    rw [List.nil_append, deleteLoop, if_neg (by rw [hbad]; exact Bool.false_ne_true)]
    rfl
  | cons a rest ih =>
    intro bad post h hbad
    rw [List.cons_append, deleteLoop]
    rw [if_pos (h a (List.mem_cons_self a rest))]
    rw [ih bad post (fun i hi => h i (List.mem_cons_of_mem a hi)) hbad]
    rfl

lemma applyDeletes_eq_filter :
    ∀ (ids : List String) (msgs : List ThreadMessage),
      applyDeletes msgs ids
        = msgs.filter (fun m => decide (m.id ∉ ids)) := by
  intro ids
  induction ids with
  | nil => intro msgs; simp [applyDeletes]
  | cons i rest ih =>
    intro msgs
    have hstep : applyDeletes msgs (i :: rest)
        = applyDeletes (msgs.filter (fun m => m.id ≠ i)) rest := rfl
    rw [hstep, ih, List.filter_filter]
    apply List.filter_congr
    intro m _
    by_cases h1 : m.id = i <;> by_cases h2 : m.id ∈ rest <;>
      simp [h1, h2]

lemma applyDeletes_own_ids (msgs : List ThreadMessage) :
    applyDeletes msgs (msgs.map (fun m => m.id)) = [] := by
  rw [applyDeletes_eq_filter]
  rw [List.filter_eq_nil_iff]
  intro m hm
  simp only [decide_not, Bool.not_eq_true', decide_eq_false_iff_not,
    Decidable.not_not]
  exact List.mem_map_of_mem (fun m => m.id) hm

/-- C6 counterexample: against a thread holding zero messages the handler
still issues one `messages.list` call (the loop body runs before the
`has_next_page` check), while the claim's `ceil(N/page_size)` demands zero
list calls at `N = 0`; shown here with the vendor's default page size 20. -/
theorem C6_counterexample_empty_thread :
    (on_reset 1 [] 20 (fun _ => true)).listCalls = 1 ∧
    (([] : List ThreadMessage).length + 20 - 1) / 20 = 0 := by
  exact ⟨rfl, rfl⟩

/-- C6 (amended): for every thread of `N` messages and positive page size
(with fuel exceeding `N` so the loop has room to terminate), Reset issues
`max 1 ⌈N/page_size⌉` list calls (i.e. `⌈N/page_size⌉` for `N ≥ 1`, and one
call, not zero, for `N = 0`), issues exactly `N` delete calls, one per
collected message id, and afterwards the thread holds zero messages. -/
theorem C6_amended_reset_counts
    (fuel pageSize : Nat) (msgs : List ThreadMessage)
    (deleteResp : String → Bool)
    (hp : 0 < pageSize) (hfuel : msgs.length < fuel)
    (hresp : ∀ i, deleteResp i = true) :
    (on_reset fuel msgs pageSize deleteResp).listCalls
        = max 1 ((msgs.length + pageSize - 1) / pageSize) ∧
    (on_reset fuel msgs pageSize deleteResp).deleteCalls
        = msgs.map (fun m => m.id) ∧
    (on_reset fuel msgs pageSize deleteResp).deleteCalls.length
        = msgs.length ∧
    (on_reset fuel msgs pageSize deleteResp).threadAfter = [] := by
  have hc := collect_spec pageSize hp fuel msgs [] 0 hfuel
  have hd := deleteLoop_all_ok deleteResp (msgs.map (fun m => m.id))
    (fun i _ => hresp i)
  unfold on_reset
  rw [hc]
  dsimp only
  rw [List.nil_append] at *
  rw [hd]
  dsimp only
  refine ⟨by omega, rfl, by rw [List.length_map], ?_⟩
  exact applyDeletes_own_ids msgs

/-- Witness for C6 (amended) at a concrete input: two messages, page size 1,
fuel 3: two list calls, two delete calls, empty thread afterwards. -/
theorem C6_witness :
    (on_reset 3 msgsDemo 1 (fun _ => true)).listCalls
        = max 1 ((msgsDemo.length + 1 - 1) / 1) ∧
    (on_reset 3 msgsDemo 1 (fun _ => true)).deleteCalls
        = msgsDemo.map (fun m => m.id) ∧
    (on_reset 3 msgsDemo 1 (fun _ => true)).deleteCalls.length
        = msgsDemo.length ∧
    (on_reset 3 msgsDemo 1 (fun _ => true)).threadAfter = [] :=
  C6_amended_reset_counts 3 1 msgsDemo (fun _ => true) (by decide)
    (by decide) (fun i => rfl)

/-- C9: the delete loop of Reset asserts `status.deleted is True` after each
delete call; when the vendor's responses report `True` for every id in the
prefix `pre` and `False` for `bad`, the handler aborts at `bad`: the loop
does not complete, and the delete calls issued are exactly `pre ++ [bad]` —
none of the remaining ids is deleted. -/
theorem C9_delete_assert_aborts
    (fuel pageSize : Nat) (msgs : List ThreadMessage)
    (deleteResp : String → Bool) (pre : List String) (bad : String)
    (post : List String)
    (hp : 0 < pageSize) (hfuel : msgs.length < fuel)
    (hsplit : msgs.map (fun m => m.id) = pre ++ bad :: post)
    (hpre : ∀ i ∈ pre, deleteResp i = true) (hbad : deleteResp bad = false) :
    (on_reset fuel msgs pageSize deleteResp).completed = false ∧
    (on_reset fuel msgs pageSize deleteResp).deleteCalls = pre ++ [bad] := by
  have hc := collect_spec pageSize hp fuel msgs [] 0 hfuel
  rw [List.nil_append] at hc
  unfold on_reset
  rw [hc]
  dsimp only
  rw [hsplit, deleteLoop_aborts deleteResp pre bad post hpre hbad]
  exact ⟨rfl, rfl⟩

/-- Witness for C9 at a concrete input: the delete response for `m2` reports
`deleted = False`, so the loop issues deletes for `m1` and `m2` only and
aborts. -/
theorem C9_witness :
    (on_reset 3 msgsDemo 1 (fun i => !(i == "m2"))).completed = false ∧
    (on_reset 3 msgsDemo 1 (fun i => !(i == "m2"))).deleteCalls
        = ["m1", "m2"] :=
  C9_delete_assert_aborts 3 1 msgsDemo (fun i => !(i == "m2")) ["m1"] "m2"
    [] (by decide) (by decide) (by decide) (by decide) (by decide)

/-- C7: the upload-for-file-search handler delegates to the vendor's
`upload_and_poll`, which polls the file batch until the vendor reports
indexing completion; so whenever the handler returns normally, the batch
status it returns with is `"completed"` and the file it added to the vector
store carries status `"completed"` — the handler never returns with indexing
still pending. -/
theorem C7_returns_after_indexing_completed
    (fs : String → Option (List Nat)) (store : List VectorStoreFile)
    (message : UploadForFileSearch) (content : List Nat)
    (hfs : fs message.file_path = some content) :
    on_upload_for_file_search fs store message
      = Except.ok
          (store ++ [{ filename := basename message.file_path,
                       content := content, status := "completed" }],
           "completed") := by
  unfold on_upload_for_file_search
  rw [hfs]
  rfl

/-- Witness for C7 at a concrete input. -/
theorem C7_witness :
    on_upload_for_file_search fsDemo []
        { file_path := "data.csv", vector_store_id := "vs-1" }
      = Except.ok
          ([{ filename := basename "data.csv", content := [1, 2, 3],
              status := "completed" }], "completed") :=
  C7_returns_after_indexing_completed fsDemo []
    { file_path := "data.csv", vector_store_id := "vs-1" } [1, 2, 3]
    (by simp [fsDemo])

/-- C10: for both upload handlers and every caller-supplied `file_path`, the
name under which the file reaches the vendor is `os.path.basename
file_path` (directory components stripped) and the uploaded content is the
full byte content of the local file read in binary mode: the
code-interpreter handler passes `(file_name, file_content)` to
`files.create`, and the file-search handler passes the same pair to
`upload_and_poll`. -/
theorem C10_upload_basename_and_full_content
    (fs : String → Option (List Nat)) (content : List Nat)
    (newFileId : String) (tr : Option ToolResources)
    (store : List VectorStoreFile) (path vsid : String)
    (hfs : fs path = some content) :
    (on_upload_for_code_interpreter fs newFileId tr
        { file_path := path }).uploadedFile
      = some { id := newFileId, filename := basename path,
               content := content } ∧
    on_upload_for_file_search fs store
        { file_path := path, vector_store_id := vsid }
      = Except.ok
          (store ++ [{ filename := basename path, content := content,
                       status := "completed" }], "completed") := by
  constructor
  · unfold on_upload_for_code_interpreter
    rw [hfs]
    dsimp only
    cases tr with
    | none => rfl
    | some t =>
      cases t.code_interpreter with
      | none => rfl
      | some ci => rfl
  · unfold on_upload_for_file_search
    rw [hfs]
    rfl

/-- Witness for C10 at a concrete input: uploading `dir/data.csv` strips the
directory, uploading under the name `data.csv` with the file's full byte
content `[7, 8, 9]`. -/
theorem C10_witness :
    (on_upload_for_code_interpreter fsDemo "file-new" none
        { file_path := "dir/data.csv" }).uploadedFile
      = some { id := "file-new", filename := "data.csv",
               content := [7, 8, 9] } :=
  have h := C10_upload_basename_and_full_content fsDemo [7, 8, 9] "file-new"
    none [] "dir/data.csv" "vs-1" (by simp [fsDemo])
  by
    rw [h.1]
    simp [basename, basenameChars]

end AssistantAgent
